import Mathlib

/-!
Shallow embedding of the donnnky/dmm1 retrieval-augmented chat application
(files `components.py`, `utils.py`, `initialize.py`, `main.py`), together with
theorems settling the frozen claims about its specification.

Python dictionary values that the program inspects (metadata entries, LLM
response fields) are modelled by the small value universe `PyVal`; machine-level
details that the claims do not touch (the embedding model, the FAISS index, the
HTTP client) appear only as opaque parameters of the embedded functions.
-/

/-- Primitive Python values occurring in document metadata: `None`, an `int`,
or a `str`. -/
inductive PyPrim where
  | vNone : PyPrim
  | vInt (n : Int) : PyPrim
  | vStr (s : String) : PyPrim
deriving DecidableEq, Repr

/-- A Python value as inspected by this program: a primitive, or a flat
dictionary of primitives (the nested `loc` mapping of `get_pdf_page_number`). -/
inductive PyVal where
  | prim (p : PyPrim) : PyVal
  | dict (entries : List (String × PyPrim)) : PyVal
deriving DecidableEq, Repr

/-- Convenience constructor for a Python string value. -/
def strVal (s : String) : PyVal := PyVal.prim (PyPrim.vStr s)

/-- Convenience constructor for a Python integer value. -/
def intVal (n : Int) : PyVal := PyVal.prim (PyPrim.vInt n)

/-- The Python value `None`. -/
def noneVal : PyVal := PyVal.prim PyPrim.vNone

/-- Boolean test that the first character list is an initial segment of the
second (structural replacement for the byte-level library primitive, so that
concrete witnesses evaluate inside the kernel). -/
def charsLe : List Char → List Char → Bool
  | [], _ => true
  | _ :: _, [] => false
  | a :: as, b :: bs => a == b && charsLe as bs

/-- Python `s.startswith(p)`. -/
def strStartsWith (s p : String) : Bool :=
  charsLe p.data s.data

/-- Python `s.endswith(p)`. -/
def strEndsWith (s p : String) : Bool :=
  charsLe p.data.reverse s.data.reverse

/-- Lowercases an ASCII letter, the fragment of Python `str.lower` relevant to
the ".pdf" suffix test. -/
def charLower (c : Char) : Char :=
  if 65 ≤ c.toNat ∧ c.toNat ≤ 90 then Char.ofNat (c.toNat + 32) else c

/-- Python `s.lower()` on the ASCII alphabet. -/
def strLower (s : String) : String :=
  String.mk (s.data.map charLower)

/-- The numeric value of a decimal digit character, `none` otherwise. -/
def charDigit? (c : Char) : Option Nat :=
  if 48 ≤ c.toNat ∧ c.toNat ≤ 57 then some (c.toNat - 48) else none

/-- Accumulates decimal digits left to right; `none` on a non-digit or when no
digit has been seen. -/
def natOfDigitsAux : Option Nat → List Char → Option Nat
  | acc, [] => acc
  | acc, c :: cs =>
    match charDigit? c, acc with
    | some d, some a => natOfDigitsAux (some (a * 10 + d)) cs
    | some d, none => natOfDigitsAux (some d) cs
    | none, _ => none

/-- Python `int(s)` on a string: an optionally signed decimal numeral. -/
def pyStrToInt? (s : String) : Option Int :=
  match s.data with
  | '-' :: rest => (natOfDigitsAux none rest).map (fun n => -(n : Int))
  | '+' :: rest => (natOfDigitsAux none rest).map (fun n => (n : Int))
  | cs => (natOfDigitsAux none cs).map (fun n => (n : Int))

/-- The decimal digit character for a value below ten. -/
def digitChar (n : Nat) : Char :=
  match n with
  | 0 => '0' | 1 => '1' | 2 => '2' | 3 => '3' | 4 => '4'
  | 5 => '5' | 6 => '6' | 7 => '7' | 8 => '8' | _ => '9'

/-- Fuel-bounded decimal digit expansion of a natural number (most significant
digit first); the fuel is always instantiated large enough. -/
def natDigitsAux : Nat → Nat → List Char → List Char
  | 0, _, acc => acc
  | fuel + 1, n, acc =>
    if n < 10 then digitChar n :: acc
    else natDigitsAux fuel (n / 10) (digitChar (n % 10) :: acc)

/-- Decimal rendering of an integer, as produced by the Python f-string. -/
def intToStr (i : Int) : String :=
  match i with
  | Int.ofNat n => String.mk (natDigitsAux (n + 1) n [])
  | Int.negSucc m => String.mk ('-' :: natDigitsAux (m + 2) (m + 1) [])

/-- Python `int(x)` on a primitive: an `int` is itself, a `str` parses as an
optionally signed decimal numeral, `None` raises (`none` here). -/
def primInt? : PyPrim → Option Int
  | PyPrim.vInt n => some n
  | PyPrim.vStr s => pyStrToInt? s
  | PyPrim.vNone => none

/-- Python `int(x)` on a `PyVal`; `int(dict)` raises, hence `none`. -/
def pyInt? : PyVal → Option Int
  | PyVal.prim p => primInt? p
  | PyVal.dict _ => none

/-- Python truthiness of a primitive value. -/
def primTruthy : PyPrim → Bool
  | PyPrim.vNone => false
  | PyPrim.vInt n => decide (n ≠ 0)
  | PyPrim.vStr s => decide (s ≠ "")

/-- Python truthiness of a `PyVal`. -/
def pyTruthy : PyVal → Bool
  | PyVal.prim p => primTruthy p
  | PyVal.dict l => decide (l ≠ [])

/-- A document metadata mapping (Python `dict`), as an association list with
first-match lookup. -/
def Meta : Type := List (String × PyVal)

instance : DecidableEq Meta := by unfold Meta; infer_instance

/-- Python `meta.get(k)`: `None` when the key is absent. -/
def metaGet (m : Meta) (k : String) : PyVal :=
  match List.lookup k m with
  | some v => v
  | none => noneVal

/-- Looking a key up and converting with `int(...)`: `none` when the key is
absent or the conversion raises (both cases fall through to the next key in
`get_pdf_page_number`). -/
def tryConv (m : Meta) (k : String) : Option Int :=
  (List.lookup k m).bind pyInt?

/-- Deduplication keeping the first occurrence of each element, the
specification-level description of the `seen_paths` loops of `components.py`. -/
def firstSeenDedup {α : Type} [DecidableEq α] : List α → List α
  | [] => []
  | x :: xs => x :: firstSeenDedup (xs.filter (fun y => decide (y ≠ x)))
termination_by l => l.length
decreasing_by
  simp only [List.length_cons]
  exact Nat.lt_succ_of_le (List.length_filter_le _ _)

theorem mem_firstSeenDedup {α : Type} [DecidableEq α] :
    ∀ (l : List α) (a : α), a ∈ firstSeenDedup l ↔ a ∈ l := by
  intro l
  induction l using firstSeenDedup.induct with
  | case1 => intro a; simp [firstSeenDedup]
  | case2 x xs ih =>
    intro a
    rw [firstSeenDedup]
    simp only [List.mem_cons, ih a, List.mem_filter]
    by_cases h : a = x <;> simp [h]

theorem nodup_firstSeenDedup {α : Type} [DecidableEq α] :
    ∀ l : List α, (firstSeenDedup l).Nodup := by
  intro l
  induction l using firstSeenDedup.induct with
  | case1 => simp [firstSeenDedup]
  | case2 x xs ih =>
    simp only [firstSeenDedup, List.nodup_cons]
    refine ⟨fun hmem => ?_, ih⟩
    rw [mem_firstSeenDedup] at hmem
    simp [List.mem_filter] at hmem

/-!
Constants from `constants.py`.  That file is not part of the sources provided;
the values below are modelled from the spec (mode names, no-match sentinels,
icon kinds).  Every theorem below is independent of the concrete values; only
the distinctness of the two icons and of the two mode names is used.
-/

/-- Modelled from the spec: `constants.py` is missing from the sources; the
search ("社内文書検索") answer mode name. -/
def ANSWER_MODE_1 : String := "社内文書検索"

/-- Modelled from the spec: `constants.py` is missing from the sources; the
inquiry ("社内問い合わせ") answer mode name. -/
def ANSWER_MODE_2 : String := "社内問い合わせ"

/-- Modelled from the spec: the no-match sentinel answer of search mode. -/
def NO_DOC_MATCH_ANSWER : String := "該当資料なし"

/-- Modelled from the spec: the fixed message shown by the no-match payload of
search mode. -/
def NO_DOC_MATCH_MESSAGE : String := "入力内容と関連する社内文書が見つかりませんでした。"

/-- Modelled from the spec: the no-match sentinel answer of inquiry mode. -/
def INQUIRY_NO_MATCH_ANSWER : String := "回答に必要な情報が見つかりませんでした。"

/-- Modelled from the spec: the icon used for web-page sources. -/
def LINK_SOURCE_ICON : String := "🔗"

/-- Modelled from the spec: the icon used for file sources. -/
def DOC_SOURCE_ICON : String := "📄"

/-!
Embedding of `utils.py`.
-/

/-- Embeds `utils.get_source_icon`: the link icon exactly for sources starting
with the string "http", the document icon otherwise. -/
def get_source_icon (source : String) : String :=
  if strStartsWith source "http" = true then LINK_SOURCE_ICON else DOC_SOURCE_ICON

/-- Embeds `utils.build_error_message`: joins the message and the common error
template with a newline. -/
def build_error_message (message : String) (common : String) : String :=
  message ++ "\n" ++ common

/-- Embeds the `loc` branch of `utils.get_pdf_page_number`: candidate keys in
order `page_number`, `page`, `pageIndex`, `pageNumber`; keys whose lowercase
form is `page` or `pageindex` are treated as 0-based, the others as 1-based. -/
def loc_page (loc : List (String × PyPrim)) : Option Int :=
  match (List.lookup "page_number" loc).bind primInt? with
  | some p => if 1 ≤ p then some p else none
  | none =>
  match (List.lookup "page" loc).bind primInt? with
  | some p => if 0 ≤ p then some (p + 1) else none
  | none =>
  match (List.lookup "pageIndex" loc).bind primInt? with
  | some p => if 0 ≤ p then some (p + 1) else none
  | none =>
  match (List.lookup "pageNumber" loc).bind primInt? with
  | some p => if 1 ≤ p then some p else none
  | none => none

/-- Embeds `utils.get_pdf_page_number`: 0-based direct keys `page` then
`page_index` (`+1` correction), then 1-based `page_number`, then the nested
`loc` mapping; a key whose value fails `int(...)` conversion is skipped, while
a converted value out of range ends the search with `None`. -/
def get_pdf_page_number (m : Meta) : Option Int :=
  match tryConv m "page" with
  | some p => if 0 ≤ p then some (p + 1) else none
  | none =>
  match tryConv m "page_index" with
  | some p => if 0 ≤ p then some (p + 1) else none
  | none =>
  match tryConv m "page_number" with
  | some p => if 1 ≤ p then some p else none
  | none =>
  match List.lookup "loc" m with
  | some (PyVal.dict loc) => loc_page loc
  | _ => none

/-- True when the string ends with ".pdf" case-insensitively, as tested by
`path.lower().endswith(".pdf")`. -/
def pdfSuffix (s : String) : Bool :=
  strEndsWith (strLower s) ".pdf"

/-- The page annotation appended to a PDF label, `（ページNo.X）`. -/
def pageAnnot (n : Int) : String :=
  "（ページNo." ++ intToStr n ++ "）"

/-- Embeds `components._label_with_page_if_pdf`: for a string path with a PDF
suffix and a non-`None` page whose `int(...)` conversion yields `p ≥ 0`, the
label is the path followed by `（ページNo.p+1）`; in every other case
(including a conversion error, caught by the bare `except`) the path is
returned unchanged. -/
def label_with_page_if_pdf (path : PyVal) (page : PyVal) : PyVal :=
  match path with
  | PyVal.prim (PyPrim.vStr s) =>
    if pdfSuffix s = true ∧ page ≠ noneVal then
      match pyInt? page with
      | some p => if 0 ≤ p then strVal (s ++ pageAnnot (p + 1)) else path
      | none => path
    else path
  | _ => path

/-- Embeds the source-extraction chain of `utils.format_source_with_page_if_pdf`:
`meta.get("source") or meta.get("file_path") or meta.get("path") or ""`. -/
def sourceOf (m : Meta) : PyVal :=
  let a := metaGet m "source"
  let b := if pyTruthy a = true then a else metaGet m "file_path"
  let c := if pyTruthy b = true then b else metaGet m "path"
  if pyTruthy c = true then c else strVal ""

/-- Embeds `utils.format_source_with_page_if_pdf`: appends `（ページNo.p）` to
a string source with a PDF suffix when `get_pdf_page_number` yields a truthy
page; otherwise returns the extracted source unchanged. -/
def format_source_with_page_if_pdf (m : Meta) : PyVal :=
  match sourceOf m with
  | PyVal.prim (PyPrim.vStr s) =>
    if pdfSuffix s = true then
      match get_pdf_page_number m with
      | some p => if p = 0 then strVal s else strVal (s ++ pageAnnot p)
      | none => strVal s
    else strVal s
  | v => v

example : get_pdf_page_number [("page_index", intVal 2)] = some 3 := by decide
example : get_pdf_page_number [("page_number", intVal 3)] = some 3 := by decide
example : get_pdf_page_number [] = none := by decide
example : get_pdf_page_number [("page", intVal (-1)), ("page_number", intVal 3)] = none := by decide
example : get_pdf_page_number [("loc", PyVal.dict [("pageIndex", PyPrim.vInt 4)])] = some 5 := by decide
example : get_pdf_page_number [("page", strVal "7")] = some 8 := by decide
example : label_with_page_if_pdf (strVal "a.PDF") (intVal 0) = strVal ("a.PDF" ++ pageAnnot 1) := by decide
example : label_with_page_if_pdf (strVal "a.txt") (intVal 0) = strVal "a.txt" := by decide
example : get_source_icon "https://x" = LINK_SOURCE_ICON := by decide
example : get_source_icon "doc.pdf" = DOC_SOURCE_ICON := by decide

/-!
Embedding of `components.py`: the two response formatters and the payloads
they return for the conversation log.
-/

/-- A retrieved chunk as the display layer sees it: its metadata mapping (the
page content is never inspected by the formatters). -/
structure Document where
  metadata : Meta := []
deriving DecidableEq

/-- The result of `chain.invoke`: the generated answer and the retrieved
context chunks.  A missing `answer` key is `none`; a missing or empty
`context` is the empty list (both are falsy in the Python truthiness test). -/
structure LlmResponse where
  answer : Option String := none
  context : List Document := []
deriving DecidableEq

/-- One entry of the `sub_choices` list of search mode: the source and, when
the chunk carried a non-`None` page, the page value. -/
structure SubChoice where
  source : PyVal
  page_number : Option PyVal := none
deriving DecidableEq

/-- The payload `display_search_llm_response` stores in the conversation log.
Keys that the Python code adds conditionally are `Option`s here, and the
`no_file_path_flg` marker is a `Bool`. -/
structure SearchContent where
  mode : String
  answer : Option String := none
  main_message : Option String := none
  main_file_path : Option PyVal := none
  main_page_number : Option PyVal := none
  sub_message : Option String := none
  sub_choices : Option (List SubChoice) := none
  no_file_path_flg : Bool := false
deriving DecidableEq

/-- The fixed supplementary sentence shown above the main document. -/
def MAIN_MESSAGE_TEXT : String :=
  "入力内容に関する情報は、以下のファイルに含まれている可能性があります。"

/-- The fixed supplementary sentence shown above the sub candidates. -/
def SUB_MESSAGE_TEXT : String :=
  "その他、ファイルありかの候補を提示します。"

/-- The fixed "no match" payload of search mode. -/
def noMatchSearchContent : SearchContent :=
  { mode := ANSWER_MODE_1,
    answer := some NO_DOC_MATCH_MESSAGE,
    no_file_path_flg := true }

/-- Embeds the sub-candidate loop of `display_search_llm_response`: walk the
chunks after the first, skip a chunk whose source is falsy or already seen,
and otherwise record the source (and its page when not `None`) and mark the
source as seen. -/
def buildSubs : List Document → List PyVal → List SubChoice
  | [], _ => []
  | d :: ds, seen =>
    let sfp := metaGet d.metadata "source"
    if pyTruthy sfp = true ∧ sfp ∉ seen then
      { source := sfp,
        page_number :=
          if metaGet d.metadata "page" = noneVal then none
          else some (metaGet d.metadata "page") }
        :: buildSubs ds (sfp :: seen)
    else buildSubs ds seen

/-- Embeds `components.display_search_llm_response`: the main payload when the
context is non-empty and the answer differs from the no-match sentinel, the
fixed no-match payload otherwise. -/
def display_search_llm_response (r : LlmResponse) : SearchContent :=
  match r.context with
  | [] => noMatchSearchContent
  | main_doc :: rest =>
    if r.answer = some NO_DOC_MATCH_ANSWER then noMatchSearchContent
    else
      let main_file_path := metaGet main_doc.metadata "source"
      let main_page_number := metaGet main_doc.metadata "page"
      let seen0 : List PyVal :=
        if pyTruthy main_file_path = true then [main_file_path] else []
      let subs := buildSubs rest seen0
      { mode := ANSWER_MODE_1,
        main_message := some MAIN_MESSAGE_TEXT,
        main_file_path := some main_file_path,
        main_page_number :=
          if main_page_number = noneVal then none else some main_page_number,
        sub_message := if subs = [] then none else some SUB_MESSAGE_TEXT,
        sub_choices := if subs = [] then none else some subs,
        no_file_path_flg := false }

/-- One entry of the `file_info_list` of inquiry mode. -/
structure FileInfo where
  path : PyVal
  label : PyVal
deriving DecidableEq

/-- The payload `display_contact_llm_response` stores in the conversation
log. -/
structure ContactContent where
  mode : String
  answer : String
  message : Option String := none
  file_info_list : Option (List FileInfo) := none
deriving DecidableEq

/-- The heading shown above the cited sources in inquiry mode. -/
def INQUIRY_SOURCES_HEADER : String := "情報源"

/-- Embeds `meta.get("source") or meta.get("file_path")` of
`display_contact_llm_response`. -/
def resolvedPath (m : Meta) : PyVal :=
  let src := metaGet m "source"
  if pyTruthy src = true then src else metaGet m "file_path"

/-- Embeds the source loop of `display_contact_llm_response`: resolve each
chunk's path, skip falsy or already seen paths, and record the path together
with its display label. -/
def buildFileInfos : List Document → List PyVal → List FileInfo
  | [], _ => []
  | d :: ds, seen =>
    let fp := resolvedPath d.metadata
    if pyTruthy fp = true ∧ fp ∉ seen then
      { path := fp,
        label := label_with_page_if_pdf fp (metaGet d.metadata "page") }
        :: buildFileInfos ds (fp :: seen)
    else buildFileInfos ds seen

/-- Embeds `components.display_contact_llm_response`: always the answer text;
the sources heading and the deduplicated source list exactly when the answer
differs from the inquiry no-match sentinel. -/
def display_contact_llm_response (r : LlmResponse) : ContactContent :=
  if r.answer ≠ some INQUIRY_NO_MATCH_ANSWER then
    { mode := ANSWER_MODE_2,
      answer := r.answer.getD "",
      message := some INQUIRY_SOURCES_HEADER,
      file_info_list := some (buildFileInfos r.context []) }
  else
    { mode := ANSWER_MODE_2, answer := r.answer.getD "" }

example :
    display_search_llm_response
      { answer := some NO_DOC_MATCH_ANSWER,
        context := [{ metadata := [("source", strVal "a.txt")] }] }
      = noMatchSearchContent := by decide
example :
    (display_search_llm_response
      { answer := some "x",
        context := [{ metadata := [("source", strVal "a.txt")] },
                    { metadata := [("source", strVal "b.txt")] },
                    { metadata := [("source", strVal "a.txt")] },
                    { metadata := [("source", strVal "b.txt"), ("page", intVal 4)] }] }).sub_choices
      = some [{ source := strVal "b.txt" }] := by decide
example :
    (display_contact_llm_response
      { answer := some INQUIRY_NO_MATCH_ANSWER,
        context := [{ metadata := [("source", strVal "a.txt")] }] }).file_info_list
      = none := by decide
example :
    (display_contact_llm_response
      { answer := some "y",
        context := [{ metadata := [("file_path", strVal "a.pdf"), ("page", intVal 2)] }] }).file_info_list
      = some [{ path := strVal "a.pdf", label := strVal ("a.pdf" ++ pageAnnot 3) }] := by decide

/-!
Embedding of `initialize.py`.  The FAISS index and the OpenAI embeddings are
external collaborators; the retriever is modelled by the chunk list it
indexes, and the splitter and the per-URL fetch are opaque parameters.  The
in-place normalization of step 2 of `initialize_retriever` is absorbed into
the caller-chosen `split` parameter, which receives the loaded documents.
-/

/-- The session state touched by the retriever initialization. -/
structure InitSession where
  retriever : Option (List Document) := none
deriving DecidableEq

/-- The error text raised when splitting produced zero chunks. -/
def NO_CHUNKS_ERROR : String :=
  "No documents were loaded. Check RAG_TOP_FOLDER_PATH and WEB_URL_LOAD_TARGETS."

/-- The error text raised when the API key environment variable is unset. -/
def NO_API_KEY_ERROR : String := "OPENAI_API_KEY is not set"

/-- Embeds `initialize_retriever` from `initialize.py`: returns the outcome
(`ok` or the raised error) together with the session state after the call.
The state is written only in step 5, after the non-empty chunk check. -/
def init_retriever (apiKeySet : Bool) (docs : List Document)
    (split : List Document → List Document) (s : InitSession) :
    Except String Unit × InitSession :=
  if s.retriever.isSome then (Except.ok (), s)
  else if apiKeySet = false then (Except.error NO_API_KEY_ERROR, s)
  else
    let chunks := split docs
    if chunks = [] then (Except.error NO_CHUNKS_ERROR, s)
    else (Except.ok (), { retriever := some chunks })

/-- The warning text logged when fetching one web URL fails. -/
def webWarn (url : String) (e : String) : String :=
  "Web load failed: " ++ url ++ " (" ++ e ++ ")"

/-- One iteration of the URL loop of `load_data_sources`: on success extend
the web documents, on failure append a warning to the log. -/
def webStep (fetch : String → Except String (List Document))
    (acc : List Document × List String) (url : String) :
    List Document × List String :=
  match fetch url with
  | Except.ok ds => (acc.1 ++ ds, acc.2)
  | Except.error e => (acc.1, acc.2 ++ [webWarn url e])

/-- Embeds `load_data_sources` from `initialize.py`: the locally loaded
documents followed by the web documents in URL-list order, together with the
warnings logged for failed fetches.  The local-directory walk and the HTTP
fetch are opaque parameters (`localDocs`, `fetch`). -/
def load_data_sources (localDocs : List Document) (urls : List String)
    (fetch : String → Except String (List Document)) :
    List Document × List String :=
  let web := urls.foldl (webStep fetch) ([], [])
  (localDocs ++ web.1, web.2)

/-!
Embedding of the chat-turn handling of `main.py` together with
`utils.get_llm_response`.
-/

/-- One entry of `st.session_state.chat_history`: the `HumanMessage` of the
user input or the raw answer text appended after a successful chain call. -/
inductive ChatEntry where
  | human (text : String) : ChatEntry
  | aiText (text : String) : ChatEntry
deriving DecidableEq

/-- One entry of the displayed conversation log `st.session_state.messages`. -/
inductive MsgContent where
  | userText (text : String) : MsgContent
  | searchAnswer (c : SearchContent) : MsgContent
  | contactAnswer (c : ContactContent) : MsgContent
deriving DecidableEq

/-- The session conversation state of one chat turn. -/
structure ChatSession where
  chat_history : List ChatEntry := []
  messages : List MsgContent := []
deriving DecidableEq

/-- Embeds `utils.get_llm_response`: the chain invocation is an opaque
parameter (`invoke`) carrying either the response or the raised error; on
success the raw history is extended with the human message and the answer
text before the response is returned.  A response without an `answer` key
would raise a `KeyError` while building the list to append, before any state
change. -/
def get_llm_response (chat_message : String)
    (invoke : Except String LlmResponse) (s : ChatSession) :
    Except String LlmResponse × ChatSession :=
  match invoke with
  | Except.error e => (Except.error e, s)
  | Except.ok resp =>
    match resp.answer with
    | none => (Except.error "KeyError: answer", s)
    | some a =>
      (Except.ok resp,
       { s with chat_history :=
           s.chat_history ++ [ChatEntry.human chat_message, ChatEntry.aiText a] })

/-- Embeds steps 7-2 to 7-4 of `main.py`: obtain the LLM response (stopping
the turn on a raised error), build the mode-dependent display payload, and
only then append the user message and the payload to the displayed log.  A
mode outside the two radio options would raise while displaying, after the
raw history was already extended. -/
def run_chat_turn (mode : String) (chat_message : String)
    (invoke : Except String LlmResponse) (s : ChatSession) : ChatSession :=
  match get_llm_response chat_message invoke s with
  | (Except.error _, s1) => s1
  | (Except.ok resp, s1) =>
    if mode = ANSWER_MODE_1 then
      { s1 with messages := s1.messages ++
          [MsgContent.userText chat_message,
           MsgContent.searchAnswer (display_search_llm_response resp)] }
    else if mode = ANSWER_MODE_2 then
      { s1 with messages := s1.messages ++
          [MsgContent.userText chat_message,
           MsgContent.contactAnswer (display_contact_llm_response resp)] }
    else s1

example :
    run_chat_turn ANSWER_MODE_1 "q" (Except.error "boom")
      { chat_history := [ChatEntry.human "old"], messages := [MsgContent.userText "old"] }
      = { chat_history := [ChatEntry.human "old"], messages := [MsgContent.userText "old"] } := by
  decide
example :
    (run_chat_turn ANSWER_MODE_2 "q"
      (Except.ok { answer := some "a" }) {}).chat_history
      = [ChatEntry.human "q", ChatEntry.aiText "a"] := by decide
example :
    init_retriever true [] (fun ds => ds) {}
      = (Except.error NO_CHUNKS_ERROR, {}) := rfl
example :
    (load_data_sources [{ metadata := [] }] ["u1", "u2"]
      (fun u => if u = "u1" then Except.error "net" else Except.ok [{ metadata := [("source", strVal "w")] }])).1
      = [{ metadata := [] }, { metadata := [("source", strVal "w")] }] := by decide

/-!
Claim theorems.
-/

/-- Modelled from the spec: the predicate "the source string is an HTTP(S)
URL" that the claim about icon selection keys on. -/
def is_http_url (s : String) : Bool :=
  strStartsWith s "http://" || strStartsWith s "https://"

/-- C9 counterexample: the local file name "http_memo.txt" is not an HTTP(S)
URL, yet `get_source_icon` selects the link icon for it, because the code
tests only the four-character prefix "http". -/
theorem icon_http_prefix_cex :
    get_source_icon "http_memo.txt" = LINK_SOURCE_ICON
      ∧ is_http_url "http_memo.txt" = false := by
  decide

/-- C9 (amended): `get_source_icon` returns the link icon exactly when the
source string starts with "http" (not: exactly when it is an HTTP(S) URL),
and the document icon otherwise. -/
theorem icon_link_iff_http_start :
    ∀ source : String,
      get_source_icon source = LINK_SOURCE_ICON
        ↔ strStartsWith source "http" = true := by
  intro source
  unfold get_source_icon
  by_cases h : strStartsWith source "http" = true
  · simp [h]
  · rw [if_neg h]
    constructor
    · intro hE; exact absurd hE (by decide)
    · intro hS; exact absurd hS h

/-- Witness for the amended C9 theorem at a concrete URL. -/
theorem icon_link_iff_http_start_wit :
    get_source_icon "https://example.com" = LINK_SOURCE_ICON :=
  (icon_link_iff_http_start "https://example.com").mpr (by decide)

/-- C6: when splitting produces zero chunks, `initialize_retriever` (embedded
as `init_retriever`) raises instead of returning, and the session state still
holds no retriever; this holds whether the failure is the empty-chunk check or
the earlier missing-API-key check. -/
theorem empty_index_init_raises :
    ∀ (apiKeySet : Bool) (docs : List Document)
      (split : List Document → List Document) (s : InitSession),
      s.retriever = none → split docs = [] →
      (∃ e, init_retriever apiKeySet docs split s = (Except.error e, s))
        ∧ (init_retriever apiKeySet docs split s).2.retriever = none := by
  intro a docs split s hr hc
  cases a with
  | false =>
    refine ⟨⟨NO_API_KEY_ERROR, ?_⟩, ?_⟩ <;> simp [init_retriever, hr]
  | true =>
    refine ⟨⟨NO_CHUNKS_ERROR, ?_⟩, ?_⟩ <;> simp [init_retriever, hr, hc]

/-- Witness for the C6 theorem: an empty document list split by the identity
splitter raises and stores no retriever. -/
theorem empty_index_init_raises_wit :
    (∃ e, init_retriever true [] (fun ds => ds) {} = (Except.error e, {}))
      ∧ (init_retriever true [] (fun ds => ds) {}).2.retriever = none :=
  empty_index_init_raises true [] (fun ds => ds) {} rfl rfl

theorem web_foldl_spec (fetch : String → Except String (List Document)) :
    ∀ (urls : List String) (acc : List Document × List String),
      urls.foldl (webStep fetch) acc
        = (acc.1 ++ (urls.map (fun u =>
              match fetch u with
              | Except.ok ds => ds
              | Except.error _ => [])).flatten,
           acc.2 ++ urls.filterMap (fun u =>
              match fetch u with
              | Except.ok _ => none
              | Except.error e => some (webWarn u e))) := by
  intro urls
  induction urls with
  | nil => intro acc; simp
  | cons u us ih =>
    intro acc
    rw [List.foldl_cons, ih]
    cases hf : fetch u with
    | ok ds => simp [webStep, hf, List.append_assoc]
    | error e => simp [webStep, hf, List.append_assoc]

/-- C7: a fetch failure of a single URL only contributes a logged warning;
the remaining URLs are still loaded, and the returned documents are the local
documents followed by the web documents in URL-list order (each failed URL
contributing nothing). -/
theorem web_load_skip_and_continue :
    ∀ (localDocs : List Document) (urls : List String)
      (fetch : String → Except String (List Document)),
      (load_data_sources localDocs urls fetch).1
        = localDocs ++ (urls.map (fun u =>
            match fetch u with
            | Except.ok ds => ds
            | Except.error _ => [])).flatten
      ∧ (load_data_sources localDocs urls fetch).2
        = urls.filterMap (fun u =>
            match fetch u with
            | Except.ok _ => none
            | Except.error e => some (webWarn u e))
      ∧ ∀ u e, u ∈ urls → fetch u = Except.error e →
          webWarn u e ∈ (load_data_sources localDocs urls fetch).2 := by
  intro localDocs urls fetch
  have h := web_foldl_spec fetch urls ([], [])
  refine ⟨?_, ?_, ?_⟩
  · simp [load_data_sources, h]
  · simp [load_data_sources, h]
  · intro u e hu hf
    simp only [load_data_sources, h, List.nil_append, List.mem_filterMap]
    exact ⟨u, hu, by simp [hf]⟩

/-- Witness for the C7 theorem: with one failing and one succeeding URL, the
failing URL is warned about and the succeeding one still contributes. -/
theorem web_load_skip_and_continue_wit :
    webWarn "u1" "net" ∈ (load_data_sources [] ["u1"] (fun _ => Except.error "net")).2 :=
  (web_load_skip_and_continue [] ["u1"] (fun _ => Except.error "net")).2.2 "u1" "net"
    (by decide) rfl

/-- C8: when the chain invocation raises, the turn is abandoned with the
session conversation state (raw history and displayed log) exactly as before
the turn; and the raw history is extended with the turn's two entries only
when the invocation returned successfully. -/
theorem turn_abandoned_on_chain_failure :
    ∀ (mode chat_message : String) (invoke : Except String LlmResponse)
      (s : ChatSession),
      (∀ e, invoke = Except.error e → run_chat_turn mode chat_message invoke s = s)
      ∧ (∀ resp a, invoke = Except.ok resp → resp.answer = some a →
          (run_chat_turn mode chat_message invoke s).chat_history
            = s.chat_history ++ [ChatEntry.human chat_message, ChatEntry.aiText a]) := by
  intro mode msg invoke s
  constructor
  · intro e he
    subst he
    simp [run_chat_turn, get_llm_response]
  · intro resp a hok ha
    subst hok
    have hne : ANSWER_MODE_2 ≠ ANSWER_MODE_1 := by decide
    by_cases h1 : mode = ANSWER_MODE_1
    · simp [run_chat_turn, get_llm_response, ha, h1]
    · by_cases h2 : mode = ANSWER_MODE_2
      · simp [run_chat_turn, get_llm_response, ha, h1, h2, hne]
      · simp [run_chat_turn, get_llm_response, ha, h1, h2]

/-- Witness for the C8 theorem: a failing invocation leaves a concrete
session unchanged. -/
theorem turn_abandoned_on_chain_failure_wit :
    run_chat_turn ANSWER_MODE_1 "q" (Except.error "e")
        { chat_history := [ChatEntry.human "h"] }
      = { chat_history := [ChatEntry.human "h"] } :=
  (turn_abandoned_on_chain_failure ANSWER_MODE_1 "q" (Except.error "e")
    { chat_history := [ChatEntry.human "h"] }).1 "e" rfl

theorem subs_filter_step (sfp : PyVal) (seen : List PyVal) (l : List PyVal) :
    (l.filter (fun s => pyTruthy s && decide (s ∉ seen))).filter
        (fun y => decide (y ≠ sfp))
      = l.filter (fun s => pyTruthy s && decide (s ∉ sfp :: seen)) := by
  rw [List.filter_filter]
  apply List.filter_congr
  intro a _
  by_cases h1 : pyTruthy a = true <;> by_cases h2 : a ∈ seen <;>
    by_cases h3 : a = sfp <;> simp [h1, h2, h3, List.mem_cons]

theorem buildSubs_sources_eq :
    ∀ (ds : List Document) (seen : List PyVal),
      (buildSubs ds seen).map SubChoice.source
        = firstSeenDedup ((ds.map (fun d => metaGet d.metadata "source")).filter
            (fun s => pyTruthy s && decide (s ∉ seen))) := by
  intro ds
  induction ds with
  | nil => intro seen; simp [buildSubs, firstSeenDedup]
  | cons d ds ih =>
    intro seen
    by_cases h1 : pyTruthy (metaGet d.metadata "source") = true
    · by_cases h2 : metaGet d.metadata "source" ∈ seen
      · have hbf : ¬(pyTruthy (metaGet d.metadata "source") = true
            ∧ metaGet d.metadata "source" ∉ seen) := fun hc => hc.2 h2
        have hff : (pyTruthy (metaGet d.metadata "source")
            && decide (metaGet d.metadata "source" ∉ seen)) = false := by
          simp [h2]
        simp only [buildSubs, List.map_cons, List.filter_cons, if_neg hbf, hff,
          Bool.false_eq_true, if_false]
        exact ih seen
      · have hcp : pyTruthy (metaGet d.metadata "source") = true
            ∧ metaGet d.metadata "source" ∉ seen := ⟨h1, h2⟩
        have hff : (pyTruthy (metaGet d.metadata "source")
            && decide (metaGet d.metadata "source" ∉ seen)) = true := by
          simp [h1, h2]
        simp only [buildSubs, List.map_cons, List.filter_cons, if_pos hcp,
          hff, if_true]
        rw [firstSeenDedup]
        congr 1
        rw [subs_filter_step]
        exact ih (metaGet d.metadata "source" :: seen)
    · have hbf : ¬(pyTruthy (metaGet d.metadata "source") = true
          ∧ metaGet d.metadata "source" ∉ seen) := fun hc => h1 hc.1
      have hff : (pyTruthy (metaGet d.metadata "source")
          && decide (metaGet d.metadata "source" ∉ seen)) = false := by
        have h1f : pyTruthy (metaGet d.metadata "source") = false := by
          simpa using h1
        simp [h1f]
      simp only [buildSubs, List.map_cons, List.filter_cons, if_neg hbf, hff,
        Bool.false_eq_true, if_false]
      exact ih seen

/-- C3: the sub-candidate sources of search mode are exactly the first-seen
deduplication of the truthy, not-already-seen sources of the chunks after the
first (`seen` is initialized with the main source when that source is truthy);
in particular the list holds each source at most once, never an empty or
missing source, and never a source from the initial seen set. -/
theorem sub_choices_first_seen_dedup :
    ∀ (ds : List Document) (seen : List PyVal),
      (buildSubs ds seen).map SubChoice.source
        = firstSeenDedup ((ds.map (fun d => metaGet d.metadata "source")).filter
            (fun s => pyTruthy s && decide (s ∉ seen)))
      ∧ ((buildSubs ds seen).map SubChoice.source).Nodup
      ∧ ∀ s, s ∈ (buildSubs ds seen).map SubChoice.source →
          pyTruthy s = true ∧ s ∉ seen := by
  intro ds seen
  refine ⟨buildSubs_sources_eq ds seen, ?_, ?_⟩
  · rw [buildSubs_sources_eq]
    exact nodup_firstSeenDedup _
  · intro s hs
    rw [buildSubs_sources_eq, mem_firstSeenDedup, List.mem_filter] at hs
    rcases hs with ⟨_, h2⟩
    simp only [Bool.and_eq_true, decide_eq_true_eq] at h2
    exact h2

/-- Witness for the C3 theorem: with a repeated source in the tail and the
main source already seen, the repeated source appears once and is neither
empty nor the main source. -/
theorem sub_choices_first_seen_dedup_wit :
    pyTruthy (strVal "b.txt") = true ∧ strVal "b.txt" ∉ [strVal "a.txt"] :=
  (sub_choices_first_seen_dedup
      [{ metadata := [("source", strVal "b.txt")] },
       { metadata := [("source", strVal "b.txt")] }] [strVal "a.txt"]).2.2
    (strVal "b.txt") (by decide)

theorem buildFileInfos_spec :
    ∀ (ds : List Document) (seen : List PyVal),
      ((buildFileInfos ds seen).map FileInfo.path).Nodup
      ∧ ∀ fi, fi ∈ buildFileInfos ds seen →
          pyTruthy fi.path = true ∧ fi.path ∉ seen
          ∧ ∃ d, d ∈ ds ∧ fi.path = resolvedPath d.metadata
              ∧ fi.label = label_with_page_if_pdf fi.path (metaGet d.metadata "page") := by
  intro ds
  induction ds with
  | nil => intro seen; simp [buildFileInfos]
  | cons d ds ih =>
    intro seen
    by_cases hc : pyTruthy (resolvedPath d.metadata) = true
        ∧ resolvedPath d.metadata ∉ seen
    · simp only [buildFileInfos, if_pos hc]
      constructor
      · simp only [List.map_cons, List.nodup_cons]
        constructor
        · intro hmem
          rcases List.mem_map.mp hmem with ⟨fi, hfi, hpath⟩
          have hni := ((ih (resolvedPath d.metadata :: seen)).2 fi hfi).2.1
          rw [hpath] at hni
          exact hni (List.mem_cons_self _ _)
        · exact (ih _).1
      · intro fi hfi
        rcases List.mem_cons.mp hfi with hfi | hfi
        · subst hfi
          exact ⟨hc.1, hc.2, d, List.mem_cons_self _ _, rfl, rfl⟩
        · obtain ⟨hT, hN, d', hd', hp, hl⟩ := (ih _).2 fi hfi
          exact ⟨hT, fun hm => hN (List.mem_cons_of_mem _ hm), d',
            List.mem_cons_of_mem _ hd', hp, hl⟩
    · simp only [buildFileInfos, if_neg hc]
      constructor
      · exact (ih seen).1
      · intro fi hfi
        obtain ⟨hT, hN, d', hd', hp, hl⟩ := (ih seen).2 fi hfi
        exact ⟨hT, hN, d', List.mem_cons_of_mem _ hd', hp, hl⟩

/-- C5: in inquiry mode the payload carries no sources list (and no heading)
exactly in the sentinel case; otherwise it carries a list deduplicated by
source in which every entry stems from a retrieved chunk and is labeled by
the page-aware label builder. -/
theorem inquiry_no_match_payload :
    ∀ (r : LlmResponse),
      (r.answer = some INQUIRY_NO_MATCH_ANSWER →
        (display_contact_llm_response r).file_info_list = none
        ∧ (display_contact_llm_response r).message = none
        ∧ (display_contact_llm_response r).answer = INQUIRY_NO_MATCH_ANSWER)
      ∧ (r.answer ≠ some INQUIRY_NO_MATCH_ANSWER →
        ∃ l, (display_contact_llm_response r).file_info_list = some l
          ∧ (l.map FileInfo.path).Nodup
          ∧ ∀ fi, fi ∈ l →
              pyTruthy fi.path = true
              ∧ ∃ d, d ∈ r.context ∧ fi.path = resolvedPath d.metadata
                  ∧ fi.label = label_with_page_if_pdf fi.path (metaGet d.metadata "page")) := by
  intro r
  constructor
  · intro h
    simp [display_contact_llm_response, h]
  · intro h
    refine ⟨buildFileInfos r.context [], ?_, ?_, ?_⟩
    · simp [display_contact_llm_response, h]
    · exact (buildFileInfos_spec r.context []).1
    · intro fi hfi
      obtain ⟨hT, _, d, hd, hp, hl⟩ := (buildFileInfos_spec r.context []).2 fi hfi
      exact ⟨hT, d, hd, hp, hl⟩

/-- Witness for the C5 theorem: the sentinel answer yields no sources list. -/
theorem inquiry_no_match_payload_wit :
    (display_contact_llm_response { answer := some INQUIRY_NO_MATCH_ANSWER }).file_info_list
      = none :=
  ((inquiry_no_match_payload { answer := some INQUIRY_NO_MATCH_ANSWER }).1 rfl).1

/-- C1 counterexample: a non-empty context whose top chunk has no source at
all, with a non-sentinel answer, still produces the main payload (flag unset,
main message present), although the claim requires the no-match payload
whenever the top chunk's source is empty or missing. -/
theorem search_dispatch_empty_source_cex :
    pyTruthy (metaGet ([] : Meta) "source") = false
    ∧ (display_search_llm_response
        { answer := some "a", context := [{ metadata := [] }] }).no_file_path_flg = false
    ∧ (display_search_llm_response
        { answer := some "a", context := [{ metadata := [] }] }).main_message
        = some MAIN_MESSAGE_TEXT := by
  decide

/-- C1 (amended): the main payload is produced exactly when the retrieved
context list is non-empty and the answer differs from the no-match sentinel;
the top chunk's source is not consulted by the dispatch.  In every other case
the fixed no-match payload (fixed message as answer, `no_file_path_flg` set,
no main or sub fields) is produced. -/
theorem search_payload_dispatch_amended :
    ∀ (r : LlmResponse),
      ((r.context = [] ∨ r.answer = some NO_DOC_MATCH_ANSWER) →
        display_search_llm_response r = noMatchSearchContent)
      ∧ (∀ d rest, r.context = d :: rest →
          r.answer ≠ some NO_DOC_MATCH_ANSWER →
          (display_search_llm_response r).no_file_path_flg = false
          ∧ (display_search_llm_response r).main_message = some MAIN_MESSAGE_TEXT
          ∧ (display_search_llm_response r).main_file_path
              = some (metaGet d.metadata "source")
          ∧ (display_search_llm_response r).main_page_number
              = (if metaGet d.metadata "page" = noneVal then none
                 else some (metaGet d.metadata "page")))
      ∧ noMatchSearchContent.no_file_path_flg = true
      ∧ noMatchSearchContent.answer = some NO_DOC_MATCH_MESSAGE
      ∧ noMatchSearchContent.main_message = none
      ∧ noMatchSearchContent.main_file_path = none
      ∧ noMatchSearchContent.sub_message = none
      ∧ noMatchSearchContent.sub_choices = none := by
  intro r
  refine ⟨?_, ?_, rfl, rfl, rfl, rfl, rfl, rfl⟩
  · rintro (h | h)
    · simp [display_search_llm_response, h]
    · cases hc : r.context with
      | nil => simp [display_search_llm_response, hc]
      | cons d rest => simp [display_search_llm_response, hc, h]
  · intro d rest hctx hans
    simp [display_search_llm_response, hctx, hans]

/-- Witness for the amended C1 theorem: the sentinel answer yields the fixed
no-match payload. -/
theorem search_payload_dispatch_amended_wit :
    display_search_llm_response
        { answer := some NO_DOC_MATCH_ANSWER,
          context := [{ metadata := [("source", strVal "a.txt")] }] }
      = noMatchSearchContent :=
  (search_payload_dispatch_amended
    { answer := some NO_DOC_MATCH_ANSWER,
      context := [{ metadata := [("source", strVal "a.txt")] }] }).1 (Or.inr rfl)

/-- C2 counterexample: with a negative 0-based `page` value, resolution stops
and reports no page even though the 1-based `page_number` key holds 3; the
claim's chain ("otherwise returns page_number unchanged when it is at least
1") requires 3 here. -/
theorem page_resolution_shortcircuit_cex :
    get_pdf_page_number [("page", intVal (-1)), ("page_number", intVal 3)] = none
    ∧ get_pdf_page_number [("page_number", intVal 3)] = some 3 := by
  decide

/-- C2 (amended): resolution scans `page`, `page_index` (0-based), then
`page_number` (1-based), stopping at the first present key whose value
converts with `int(...)`: a 0-based key yields p+1 when p ≥ 0 and no page
when p < 0, `page_number` yields p when p ≥ 1 and no page otherwise; keys
that are absent or fail conversion are skipped; otherwise the analogous rule
runs inside a nested `loc` mapping (keys `page_number`, `page`, `pageIndex`,
`pageNumber` in that order); otherwise no page is reported.  The claim's
three examples hold. -/
theorem page_resolution_amended :
    ∀ (m : Meta) (l : List (String × PyPrim)),
      (∀ p, tryConv m "page" = some p →
        get_pdf_page_number m = if 0 ≤ p then some (p + 1) else none)
      ∧ (tryConv m "page" = none → ∀ p, tryConv m "page_index" = some p →
        get_pdf_page_number m = if 0 ≤ p then some (p + 1) else none)
      ∧ (tryConv m "page" = none → tryConv m "page_index" = none →
         ∀ p, tryConv m "page_number" = some p →
        get_pdf_page_number m = if 1 ≤ p then some p else none)
      ∧ (tryConv m "page" = none → tryConv m "page_index" = none →
         tryConv m "page_number" = none →
         List.lookup "loc" m = some (PyVal.dict l) →
        get_pdf_page_number m = loc_page l)
      ∧ (tryConv m "page" = none → tryConv m "page_index" = none →
         tryConv m "page_number" = none → List.lookup "loc" m = none →
        get_pdf_page_number m = none)
      ∧ (tryConv m "page" = none → tryConv m "page_index" = none →
         tryConv m "page_number" = none →
         ∀ q, List.lookup "loc" m = some (PyVal.prim q) →
        get_pdf_page_number m = none)
      ∧ (∀ p, (List.lookup "page_number" l).bind primInt? = some p →
        loc_page l = if 1 ≤ p then some p else none)
      ∧ ((List.lookup "page_number" l).bind primInt? = none →
         ∀ p, (List.lookup "page" l).bind primInt? = some p →
        loc_page l = if 0 ≤ p then some (p + 1) else none)
      ∧ ((List.lookup "page_number" l).bind primInt? = none →
         (List.lookup "page" l).bind primInt? = none →
         ∀ p, (List.lookup "pageIndex" l).bind primInt? = some p →
        loc_page l = if 0 ≤ p then some (p + 1) else none)
      ∧ ((List.lookup "page_number" l).bind primInt? = none →
         (List.lookup "page" l).bind primInt? = none →
         (List.lookup "pageIndex" l).bind primInt? = none →
         ∀ p, (List.lookup "pageNumber" l).bind primInt? = some p →
        loc_page l = if 1 ≤ p then some p else none)
      ∧ get_pdf_page_number [("page_index", intVal 2)] = some 3
      ∧ get_pdf_page_number [("page_number", intVal 3)] = some 3
      ∧ get_pdf_page_number [] = none := by
  intro m l
  refine ⟨?_, ?_, ?_, ?_, ?_, ?_, ?_, ?_, ?_, ?_, by decide, by decide, by decide⟩
  · intro p h
    simp [get_pdf_page_number, h]
  · intro h0 p h
    simp [get_pdf_page_number, h0, h]
  · intro h0 h1 p h
    simp [get_pdf_page_number, h0, h1, h]
  · intro h0 h1 h2 hl
    simp [get_pdf_page_number, h0, h1, h2, hl]
  · intro h0 h1 h2 hl
    simp [get_pdf_page_number, h0, h1, h2, hl]
  · intro h0 h1 h2 q hl
    simp [get_pdf_page_number, h0, h1, h2, hl]
  · intro p h
    simp [loc_page, h]
  · intro h0 p h
    simp [loc_page, h0, h]
  · intro h0 h1 p h
    simp [loc_page, h0, h1, h]
  · intro h0 h1 h2 p h
    simp [loc_page, h0, h1, h2, h]

/-- Witness for the amended C2 theorem: the 0-based `page` key with value 2
resolves to page 3. -/
theorem page_resolution_amended_wit :
    get_pdf_page_number [("page", intVal 2)] = some 3 :=
  ((page_resolution_amended [("page", intVal 2)] []).1 2 rfl).trans (by decide)

theorem pageAnnot_len (n : Int) : 1 ≤ (pageAnnot n).length := by
  unfold pageAnnot
  rw [String.length_append, String.length_append]
  have h7 : ("（ページNo." : String).length = 7 := by decide
  omega

theorem append_pageAnnot_ne (s : String) (n : Int) : s ++ pageAnnot n ≠ s := by
  intro h
  have hlen : (s ++ pageAnnot n).length = s.length := by rw [h]
  rw [String.length_append] at hlen
  have h1 : 1 ≤ (pageAnnot n).length := pageAnnot_len n
  omega

/-- C4: a displayed label differs from the bare source string (that is,
carries the appended page annotation) exactly when the source ends with
".pdf" case-insensitively and a page was resolved; a non-PDF source is never
annotated, whatever page metadata is present.  Both label builders are
covered: the component-level one (page value from the chunk) and the
metadata-level one (page from `get_pdf_page_number`). -/
theorem pdf_page_label_iff :
    ∀ (s : String) (page : PyVal) (m : Meta),
      (label_with_page_if_pdf (strVal s) page ≠ strVal s
        ↔ pdfSuffix s = true ∧ ∃ p, pyInt? page = some p ∧ 0 ≤ p)
      ∧ (pdfSuffix s = false → label_with_page_if_pdf (strVal s) page = strVal s)
      ∧ (format_source_with_page_if_pdf m ≠ sourceOf m
        ↔ ∃ s2, sourceOf m = strVal s2 ∧ pdfSuffix s2 = true
            ∧ ∃ p, get_pdf_page_number m = some p ∧ p ≠ 0) := by
  intro s page m
  refine ⟨⟨?_, ?_⟩, ?_, ?_, ?_⟩
  · intro hne
    by_cases hc : pdfSuffix s = true ∧ page ≠ noneVal
    · cases hp : pyInt? page with
      | none => exact absurd (by simp [label_with_page_if_pdf, strVal, hc, hp]) hne
      | some p =>
        by_cases h0 : 0 ≤ p
        · exact ⟨hc.1, p, rfl, h0⟩
        · exact absurd (by simp [label_with_page_if_pdf, strVal, hc, hp, h0]) hne
    · exact absurd (by simp [label_with_page_if_pdf, strVal, hc]) hne
  · rintro ⟨hpdf, p, hp, h0⟩
    have hnn : page ≠ noneVal := by
      intro he
      subst he
      simp [pyInt?, noneVal, primInt?] at hp
    have hlab : label_with_page_if_pdf (strVal s) page
        = strVal (s ++ pageAnnot (p + 1)) := by
      simp [label_with_page_if_pdf, strVal, hp, h0, hpdf, hnn]
    rw [hlab]
    intro heq
    have hse : s ++ pageAnnot (p + 1) = s := by
      simpa [strVal] using heq
    exact append_pageAnnot_ne s (p + 1) hse
  · intro hf
    simp [label_with_page_if_pdf, strVal, hf]
  · intro hne
    cases hsrc : sourceOf m with
    | prim q =>
      cases q with
      | vStr s2 =>
        by_cases hpdf : pdfSuffix s2 = true
        · cases hp : get_pdf_page_number m with
          | none =>
            exact absurd (by simp [format_source_with_page_if_pdf, hsrc, hpdf, hp, strVal]) hne
          | some p =>
            by_cases h0 : p = 0
            · subst h0
              exact absurd (by simp [format_source_with_page_if_pdf, hsrc, hpdf, hp, strVal]) hne
            · exact ⟨s2, by simp [hsrc, strVal], hpdf, p, rfl, h0⟩
        · exact absurd (by simp [format_source_with_page_if_pdf, hsrc, hpdf, strVal]) hne
      | vNone =>
        exact absurd (by simp [format_source_with_page_if_pdf, hsrc]) hne
      | vInt n =>
        exact absurd (by simp [format_source_with_page_if_pdf, hsrc]) hne
    | dict entries =>
      exact absurd (by simp [format_source_with_page_if_pdf, hsrc]) hne
  · rintro ⟨s3, hs3, hpdf, p, hp, h0⟩
    have hlab : format_source_with_page_if_pdf m = strVal (s3 ++ pageAnnot p) := by
      simp [format_source_with_page_if_pdf, hs3, strVal, hpdf, hp, h0]
    rw [hlab, hs3]
    intro heq
    have hse : s3 ++ pageAnnot p = s3 := by
      simpa [strVal] using heq
    exact append_pageAnnot_ne s3 p hse

/-- Witness for the C4 theorem: a PDF source with page 0 is annotated, a text
source with the same page metadata is not. -/
theorem pdf_page_label_iff_wit :
    label_with_page_if_pdf (strVal "a.pdf") (intVal 0) ≠ strVal "a.pdf"
    ∧ label_with_page_if_pdf (strVal "a.txt") (intVal 0) = strVal "a.txt" :=
  ⟨(pdf_page_label_iff "a.pdf" (intVal 0) []).1.mpr ⟨by decide, 0, rfl, by decide⟩,
   (pdf_page_label_iff "a.txt" (intVal 0) []).2.1 (by decide)⟩

theorem loc_page_pos : ∀ (l : List (String × PyPrim)) (n : Int),
    loc_page l = some n → 1 ≤ n := by
  intro l n h
  unfold loc_page at h
  repeat' split at h
  all_goals simp_all
  all_goals omega

theorem get_pdf_page_number_pos : ∀ (m : Meta) (n : Int),
    get_pdf_page_number m = some n → 1 ≤ n := by
  intro m n h
  unfold get_pdf_page_number at h
  repeat' split at h
  all_goals first
    | exact loc_page_pos _ _ h
    | simp_all
  all_goals omega

/-- C10: a resolved page number is never 0 or negative — `get_pdf_page_number`
returns `none` or an integer at least 1 — and whenever the label builder
decorates a label it displays p+1 ≥ 1 for the converted page p ≥ 0. -/
theorem page_numbers_at_least_one :
    (∀ (m : Meta) (n : Int), get_pdf_page_number m = some n → 1 ≤ n)
    ∧ (∀ (s : String) (page : PyVal),
        label_with_page_if_pdf (strVal s) page ≠ strVal s →
        ∃ p, pyInt? page = some p ∧ 0 ≤ p ∧ 1 ≤ p + 1
          ∧ label_with_page_if_pdf (strVal s) page = strVal (s ++ pageAnnot (p + 1))) := by
  constructor
  · exact get_pdf_page_number_pos
  · intro s page hne
    by_cases hc : pdfSuffix s = true ∧ page ≠ noneVal
    · cases hp : pyInt? page with
      | none => exact absurd (by simp [label_with_page_if_pdf, strVal, hc, hp]) hne
      | some p =>
        by_cases h0 : 0 ≤ p
        · refine ⟨p, rfl, h0, by omega, ?_⟩
          simp [label_with_page_if_pdf, strVal, hc, hp, h0]
        · exact absurd (by simp [label_with_page_if_pdf, strVal, hc, hp, h0]) hne
    · exact absurd (by simp [label_with_page_if_pdf, strVal, hc]) hne

/-- Witness for the C10 theorem at concrete inputs: page metadata 2 resolves
to 3 ≥ 1, and an annotated PDF label for raw page 0 shows page 1. -/
theorem page_numbers_at_least_one_wit :
    (1 : Int) ≤ 3
    ∧ ∃ p, pyInt? (intVal 0) = some p ∧ 0 ≤ p ∧ 1 ≤ p + 1
        ∧ label_with_page_if_pdf (strVal "a.pdf") (intVal 0)
            = strVal ("a.pdf" ++ pageAnnot (p + 1)) :=
  ⟨page_numbers_at_least_one.1 [("page", intVal 2)] 3 (by decide),
   page_numbers_at_least_one.2 "a.pdf" (intVal 0) (by decide)⟩
